import Mathlib

/-!
Verification development for the Disign.pro request-tracking application.

The Python source (src/main/models.py, forms.py, views.py) is shallowly
embedded below: each Django model becomes a Lean structure, each form's
validation becomes an executable function producing a list of field errors,
and each view handler becomes a function from an explicit store (lists of
rows) to an outcome together with the updated store.  Machine behaviour that
Django supplies implicitly (ModelForm choice validation, ClearableFileInput
falling back to the instance's current file, `get_object_or_404` filters) is
made explicit, following Django's documented semantics.
-/

namespace DesignPro

/-! ## models.py -/

/-- An uploaded file as seen by a validator: its submitted name and its size
in bytes (`value.name`, `value.size` in Django). -/
structure UploadedFile where
  name : String
  size : Nat
  deriving DecidableEq, Repr

/-- `validate_file_size` (models.py:9-12): rejects a file whose size exceeds
`2 * 1024 * 1024` bytes. -/
def validate_file_size (value : UploadedFile) : Except String Unit :=
  if value.size > 2 * 1024 * 1024 then
    .error "file too large"
  else
    .ok ()

/-- Last index of character `c` in the list, as `os.path`'s `rfind`: `-1`
when absent. -/
def rfindChar (cs : List Char) (c : Char) : Int :=
  go cs 0 (-1)
where
  go : List Char → Nat → Int → Int
    | [], _, acc => acc
    | x :: xs, pos, acc => go xs (pos + 1) (if x == c then (pos : Int) else acc)

/-- The extension component of `os.path.splitext(p)`, following the
CPython `posixpath` implementation: the extension starts at the last dot
that comes after the last path separator, provided some non-dot character
of the basename precedes it (so leading dots of a basename never start an
extension). -/
def splitext_ext (p : String) : String :=
  let cs := p.data
  let sepIndex := rfindChar cs '/'
  let dotIndex := rfindChar cs '.'
  if sepIndex < dotIndex then
    if (List.range cs.length).any (fun i =>
        decide (sepIndex < (i : Int)) && decide ((i : Int) < dotIndex)
          && (cs.getD i '.' != '.')) then
      String.mk (cs.drop dotIndex.toNat)
    else ""
  else ""

/-- The allowed image extensions (models.py:16). -/
def valid_extensions : List String := [".jpg", ".jpeg", ".png", ".bmp"]

/-- Python's `str.lower()` applied character-wise (the ASCII mapping, which
covers every character an extension comparison can meet here). -/
def strLower (s : String) : String := String.mk (s.data.map Char.toLower)

/-- `validate_image_extension_and_size` (models.py:14-19): first the size
check (a raised error propagates), then the lower-cased extension must be
one of `valid_extensions`. -/
def validate_image_extension_and_size (value : UploadedFile) : Except String Unit :=
  match validate_file_size value with
  | .error e => .error e
  | .ok _ =>
    let ext := strLower (splitext_ext value.name)
    if ext ∈ valid_extensions then
      .ok ()
    else
      .error "invalid file format"

/-- `Category` (models.py:21-28): `{id, name}` with a database-level
case-sensitive `unique=True` on `name`. -/
structure Category where
  id : Nat
  name : String
  deriving DecidableEq, Repr

/-- `DesignRequest.STATUS_CHOICES` (models.py:31-35), value and display
label.  Note the third choice's value token is spelled `complited`. -/
def STATUS_CHOICES : List (String × String) :=
  [("new", "Новая"), ("in_progress", "Принято"), ("complited", "Выполнено")]

/-- `DesignRequest` (models.py:30-50).  `user` and `category` are foreign
keys held as ids; images are stored file references; `admin_comment` is a
text field whose blank value is the empty string. -/
structure DesignRequest where
  id : Nat
  user : Nat
  title : String
  description : String
  category : Nat
  plan_image : String
  status : String
  created_at : Nat
  design_image : Option String
  admin_comment : String
  deriving DecidableEq, Repr

/-! ## forms.py — CustomUserCreationForm -/

/-- Python `str.split()` with no separator over a character list: split on
runs of whitespace, discarding empty pieces. -/
def splitWS : List Char → List Char → List String
  | [], cur => if cur.isEmpty then [] else [String.mk cur.reverse]
  | c :: rest, cur =>
      if c.isWhitespace then
        if cur.isEmpty then splitWS rest []
        else String.mk cur.reverse :: splitWS rest []
      else splitWS rest (c :: cur)

/-- `full_name.strip().split()` as in forms.py:82 and forms.py:97:
whitespace-separated non-empty tokens (stripping first is absorbed by
discarding empty pieces). -/
def pySplit (s : String) : List String := splitWS s.data []

/-- `CustomUserCreationForm.clean_full_name` (forms.py:77-89): after
splitting, fewer than 2 parts is an error.  (The subsequent per-part
emptiness loop can never fire, since `split()` already discards empty
parts.) -/
def clean_full_name (full_name : String) : Except String String :=
  let parts := pySplit full_name
  if parts.length < 2 then
    .error "please enter at least a first and last name"
  else
    .ok full_name

/-- The body of `CustomUserCreationForm.save` (forms.py:100-110) deriving
`(first_name, last_name)` from the split name parts: `first_name` is part 1,
`last_name` is part 0, overwritten by part 0 ++ " " ++ part 2 when more than
two parts exist. -/
def derive_from_parts (name_parts : List String) : String × String :=
  if name_parts.length ≥ 2 then
    let first_name := name_parts.getD 1 ""
    let last_name := name_parts.getD 0 ""
    let last_name :=
      if name_parts.length > 2 then
        name_parts.getD 0 "" ++ " " ++ name_parts.getD 2 ""
      else last_name
    (first_name, last_name)
  else
    ("", "")

/-- `CustomUserCreationForm.save` name derivation (forms.py:91-115):
split the full name, then derive the two name components. -/
def derive_names (full_name : String) : String × String :=
  derive_from_parts (pySplit full_name)

/-! ## forms.py — DesignRequestForm and views.py — create_request -/

/-- The POST payload for creating a request.  `status` is present because a
client may submit any extra field; the form only declares
`title, description, category, plan_image` (forms.py:125) and makes each of
them required (forms.py:148-149). -/
structure DesignRequestInput where
  title : String
  description : String
  category : Option Nat
  plan_image : Option UploadedFile
  status : String
  deriving DecidableEq, Repr

/-- `DesignRequestForm.is_valid()`: every declared field required
(non-empty title and description, an existing category, an uploaded plan
image passing the model validator).  `status` is not a form field and is
never consulted. -/
def DesignRequestForm_is_valid (categories : List Category) (inp : DesignRequestInput) : Bool :=
  (!(inp.title == "")) && (!(inp.description == "")) &&
  (match inp.category with
   | some c => categories.any (fun cat => cat.id == c)
   | none => false) &&
  (match inp.plan_image with
   | some f => (validate_image_extension_and_size f).isOk
   | none => false)

/-- `create_request` POST branch (views.py:83-91): when the form validates,
save with `user` set to the caller and `status` set to the literal "new";
otherwise no write happens. -/
def create_request_post (caller : Nat) (categories : List Category)
    (requests : List DesignRequest) (next_id now : Nat) (inp : DesignRequestInput) :
    Option DesignRequest × List DesignRequest :=
  if DesignRequestForm_is_valid categories inp then
    let design_request : DesignRequest :=
      { id := next_id
        user := caller
        title := inp.title
        description := inp.description
        category := inp.category.getD 0
        plan_image := (inp.plan_image.map UploadedFile.name).getD ""
        status := "new"
        created_at := now
        design_image := none
        admin_comment := "" }
    (some design_request, requests ++ [design_request])
  else
    (none, requests)

/-! ## forms.py — ChangeStatusForm -/

/-- The POST payload for the status-change form: the selected status value,
an optional uploaded design image, and the comment text (empty string when
left blank). -/
structure ChangeStatusInput where
  status : String
  design_image : Option UploadedFile
  admin_comment : String
  deriving DecidableEq, Repr

/-- The status values offered by the form's `status` field: a `ModelForm`
field over a `choices` column offers exactly the model's choice values
(forms.py:158 with models.py:31-35). -/
def ChangeStatusForm_status_choices : List String :=
  STATUS_CHOICES.map Prod.fst

/-- The cleaned `status` value: a submitted value outside the model's
choices fails field validation, so `cleaned_data.get` yields nothing. -/
def ChangeStatusForm_cleaned_status (inp : ChangeStatusInput) : Option String :=
  if inp.status ∈ ChangeStatusForm_status_choices then some inp.status else none

/-- The cleaned `design_image` value: a valid upload replaces the stored
reference; no upload keeps the instance's current file (Django's
`ClearableFileInput` returns the initial file when no new one is given);
an invalid upload yields nothing. -/
def ChangeStatusForm_cleaned_design_image (inst : DesignRequest)
    (inp : ChangeStatusInput) : Option String :=
  match inp.design_image with
  | some f => if (validate_image_extension_and_size f).isOk then some f.name else none
  | none => inst.design_image

/-- All field errors of `ChangeStatusForm`: field-level cleaning (status
choice membership, design-image model validator) followed by the
cross-field `clean` (forms.py:171-187), which compares the cleaned status
against the literal tokens "completed" and "in_progress". -/
def ChangeStatusForm_errors (inst : DesignRequest) (inp : ChangeStatusInput) : List String :=
  (if inp.status ∈ ChangeStatusForm_status_choices then [] else ["status"]) ++
  (match inp.design_image with
   | some f => if (validate_image_extension_and_size f).isOk then [] else ["design_image"]
   | none => []) ++
  (if ChangeStatusForm_cleaned_status inp = some "completed"
      ∧ ChangeStatusForm_cleaned_design_image inst inp = none then
    ["design_image"]
   else []) ++
  (if ChangeStatusForm_cleaned_status inp = some "in_progress"
      ∧ inp.admin_comment = "" then
    ["admin_comment"]
   else [])

/-- `ChangeStatusForm.is_valid()`: no field errors. -/
def ChangeStatusForm_is_valid (inst : DesignRequest) (inp : ChangeStatusInput) : Bool :=
  ChangeStatusForm_errors inst inp == []

/-- `ChangeStatusForm.save()` on a valid form: write the cleaned status,
design image and comment onto the instance (fields list forms.py:158). -/
def ChangeStatusForm_save (inst : DesignRequest) (inp : ChangeStatusInput) : DesignRequest :=
  { inst with
      status := inp.status
      design_image := ChangeStatusForm_cleaned_design_image inst inp
      admin_comment := inp.admin_comment }

/-! ## views.py — change_status, delete_request, home, manage_categories -/

/-- Outcome of a `change_status` POST (views.py:127-146). -/
inductive ChangeStatusResult where
  | notFound
  | guardRejected
  | formInvalid
  | success
  deriving DecidableEq, Repr

/-- `change_status` POST branch (views.py:127-146): look the request up by
id (404 when absent); reject with an error notice when its current status
is in the literal list `["in_progress", "completed"]`; otherwise run the
form and, when valid, save. -/
def change_status_post (requests : List DesignRequest) (request_id : Nat)
    (inp : ChangeStatusInput) : ChangeStatusResult × List DesignRequest :=
  match requests.find? (fun r => r.id == request_id) with
  | none => (.notFound, requests)
  | some design_request =>
    if design_request.status ∈ ["in_progress", "completed"] then
      (.guardRejected, requests)
    else if ChangeStatusForm_is_valid design_request inp then
      (.success, requests.map (fun r =>
        if r.id == request_id then ChangeStatusForm_save design_request inp else r))
    else
      (.formInvalid, requests)

/-- Outcome of a `delete_request` POST (views.py:98-114). -/
inductive DeleteResult where
  | notFound
  | guardRejected
  | deleted
  deriving DecidableEq, Repr

/-- `delete_request` POST branch (views.py:98-114):
`get_object_or_404(DesignRequest, id=request_id, user=request.user)` (404
when no row matches both the id and the caller); reject with an error
notice when the status is in the literal list `["in_progress",
"completed"]`; otherwise delete the row. -/
def delete_request_post (requests : List DesignRequest) (caller : Nat)
    (request_id : Nat) : DeleteResult × List DesignRequest :=
  match requests.find? (fun r => r.id == request_id && r.user == caller) with
  | none => (.notFound, requests)
  | some design_request =>
    if design_request.status ∈ ["in_progress", "completed"] then
      (.guardRejected, requests)
    else
      (.deleted, requests.filter (fun r => !(r.id == request_id)))

/-- Insert keeping a newest-first order on `created_at`. -/
def insertByCreatedAtDesc (r : DesignRequest) : List DesignRequest → List DesignRequest
  | [] => [r]
  | x :: xs =>
      if x.created_at ≤ r.created_at then r :: x :: xs
      else x :: insertByCreatedAtDesc r xs

/-- `order_by('-created_at')`: sort newest-first. -/
def orderByCreatedAtDesc (l : List DesignRequest) : List DesignRequest :=
  l.foldr insertByCreatedAtDesc []

/-- The landing-page query (views.py:54):
`DesignRequest.objects.filter(status='completed').order_by('-created_at')[:4]`. -/
def home_completed_requests (requests : List DesignRequest) : List DesignRequest :=
  (orderByCreatedAtDesc (requests.filter (fun r => r.status == "completed"))).take 4

/-- `CategoryForm.clean_name` (forms.py:218-225): reject a name equal,
case-insensitively (`name__iexact`), to an existing category's name other
than the instance being edited. -/
def CategoryForm_clean_name (categories : List Category) (instance_pk : Option Nat)
    (name : String) : Except String String :=
  if categories.any (fun c =>
      (strLower c.name == strLower name) && !(instance_pk == some c.id)) then
    .error "a category with this name already exists"
  else
    .ok name

/-- `Category.objects.create(name=name)` (views.py:162): the only check is
the database's case-sensitive unique constraint on `name` (models.py:22); a
case-sensitive duplicate raises an integrity error, anything else inserts. -/
def category_objects_create (categories : List Category) (next_id : Nat)
    (name : String) : Except String (List Category) :=
  if categories.any (fun c => c.name == name) then
    .error "IntegrityError: unique constraint on name"
  else
    .ok (categories ++ [{ id := next_id, name := name }])

/-- `manage_categories` POST branch (views.py:156-174): the `add` action
creates the category directly from the raw posted name whenever it is
non-empty — `CategoryForm` is never invoked; the `delete` action removes
the category's requests and then the category; anything else is a no-op. -/
def manage_categories_post (categories : List Category) (requests : List DesignRequest)
    (next_id : Nat) (action : Option String) (name : Option String)
    (category_id : Option Nat) :
    Except String (List Category × List DesignRequest) :=
  match action with
  | some "add" =>
    match name with
    | some n =>
        if n ≠ "" then
          (category_objects_create categories next_id n).map (fun cats => (cats, requests))
        else
          .ok (categories, requests)
    | none => .ok (categories, requests)
  | some "delete" =>
    match category_id with
    | some cid =>
        match categories.find? (fun c => c.id == cid) with
        | some _ =>
            .ok (categories.filter (fun c => !(c.id == cid)),
                 requests.filter (fun r => !(r.category == cid)))
        | none => .ok (categories, requests)
    | none => .ok (categories, requests)
  | _ => .ok (categories, requests)

/-! ## Concrete rows used as test inputs -/

/-- A request sitting in the model's completed state: its status is the
value token of the third `STATUS_CHOICES` entry, i.e. "complited". -/
def completed_request : DesignRequest :=
  { id := 1
    user := 1
    title := "Kitchen"
    description := "full redesign"
    category := 1
    plan_image := "plan.jpg"
    status := "complited"
    created_at := 5
    design_image := some "design.jpg"
    admin_comment := "done" }

/-- A freshly created request (status "new") used for status-change runs. -/
def c2_request : DesignRequest :=
  { id := 2
    user := 1
    title := "Bathroom"
    description := "tiles"
    category := 1
    plan_image := "plan.png"
    status := "new"
    created_at := 7
    design_image := none
    admin_comment := "" }

/-- A fresh request used to exercise the in-progress comment rule. -/
def c5_request : DesignRequest :=
  { id := 3
    user := 2
    title := "Hall"
    description := "lighting"
    category := 1
    plan_image := "plan.bmp"
    status := "new"
    created_at := 9
    design_image := none
    admin_comment := "" }

/-- A fresh request used to exercise the no-op "new" target. -/
def c10_request : DesignRequest :=
  { id := 4
    user := 3
    title := "Bedroom"
    description := "walls"
    category := 2
    plan_image := "plan.jpeg"
    status := "new"
    created_at := 11
    design_image := none
    admin_comment := "" }

/-- A creation payload that tries to smuggle in a status value. -/
def c3_input : DesignRequestInput :=
  { title := "Office"
    description := "open space"
    category := some 1
    plan_image := some { name := "plan.jpg", size := 99 }
    status := "complited" }

/-- The row `create_request_post` persists for `c3_input`. -/
def c3_result : DesignRequest :=
  { id := 10
    user := 5
    title := "Office"
    description := "open space"
    category := 1
    plan_image := "plan.jpg"
    status := "new"
    created_at := 100
    design_image := none
    admin_comment := "" }

/-- An existing category, for uniqueness runs. -/
def design_category : Category := { id := 1, name := "Design" }

/-! ## Claim theorems -/

/-- C1: the claim says a status-change attempt on a request whose status is
`in_progress` or completed is always rejected before any mutation, so a
change is only possible from `new`.  The code violates this: the guard in
`change_status` compares against the literal "completed", while the model's
completed choice stores the token "complited", so a request in the completed
state passes the guard and is mutated — here its status is even moved back
to "new".  A request in `in_progress` is rejected unchanged, showing the
guard itself works for the correctly spelled token. -/
theorem c1_guard_bypassed_for_completed_status :
    completed_request.status = (STATUS_CHOICES.getD 2 ("", "")).1
    ∧ change_status_post [completed_request] 1
        { status := "new", design_image := none, admin_comment := "" }
        = (.success, [{ completed_request with status := "new", admin_comment := "" }])
    ∧ change_status_post [{ completed_request with status := "in_progress" }] 1
        { status := "new", design_image := none, admin_comment := "" }
        = (.guardRejected, [{ completed_request with status := "in_progress" }]) := by
  decide

/-- C2: the claim says selecting the completed status without a design
image is rejected with a design-image error, and with an image it succeeds.
The code violates this: the form's completed choice submits the token
"complited", which the cross-field `clean` (comparing against "completed")
never matches, so the submission with NO image validates and persists the
completed status with no image; the literal token "completed" is not an
offered choice at all, so submitting it fails on the status field even with
a perfectly valid image attached. -/
theorem c2_completed_choice_needs_no_image :
    ChangeStatusForm_status_choices = ["new", "in_progress", "complited"]
    ∧ ChangeStatusForm_is_valid c2_request
        { status := "complited", design_image := none, admin_comment := "" } = true
    ∧ change_status_post [c2_request] 2
        { status := "complited", design_image := none, admin_comment := "" }
        = (.success, [{ c2_request with status := "complited" }])
    ∧ ChangeStatusForm_is_valid c2_request
        { status := "completed",
          design_image := some { name := "design.jpg", size := 9 },
          admin_comment := "" } = false
    ∧ "status" ∈ ChangeStatusForm_errors c2_request
        { status := "completed",
          design_image := some { name := "design.jpg", size := 9 },
          admin_comment := "" } := by
  decide

/-- C4: the claim says the landing page lists the up-to-4 newest requests
in the completed state.  The code violates this: the landing-page query
filters on the literal "completed", while the model's completed choice
stores "complited", so a request in the completed state is never listed;
only a row carrying the literal string "completed" — which no model choice
ever produces — would be. -/
theorem c4_landing_page_misses_completed_requests :
    completed_request.status = (STATUS_CHOICES.getD 2 ("", "")).1
    ∧ home_completed_requests [completed_request] = []
    ∧ home_completed_requests [{ completed_request with status := "completed" }]
        = [{ completed_request with status := "completed" }] := by
  decide

/-- C6: the claim says the owner's deletion is rejected when the request's
status is `in_progress` or completed.  The code violates the completed
half: the guard in `delete_request` compares against the literal
"completed", while the model's completed choice stores "complited", so the
owner deletes a completed request; a non-owner still gets not-found and an
`in_progress` request is still protected. -/
theorem c6_delete_guard_bypassed_for_completed_status :
    completed_request.status = (STATUS_CHOICES.getD 2 ("", "")).1
    ∧ delete_request_post [completed_request] 1 1 = (.deleted, [])
    ∧ delete_request_post [completed_request] 2 1 = (.notFound, [completed_request])
    ∧ delete_request_post [{ completed_request with status := "in_progress" }] 1 1
        = (.guardRejected, [{ completed_request with status := "in_progress" }]) := by
  decide

/-- C7: the claim says the admin add action fails on a name equal to an
existing category's name up to case, creating nothing.  The code violates
this: `manage_categories` calls `Category.objects.create` directly, never
running `CategoryForm`, so adding "design" next to the existing "Design"
succeeds and leaves two categories whose names differ only in case — even
though `CategoryForm.clean_name` (shown alongside) would have rejected the
very same name. -/
theorem c7_category_add_bypasses_case_insensitive_uniqueness :
    strLower "design" = strLower design_category.name
    ∧ (CategoryForm_clean_name [design_category] none "design").isOk = false
    ∧ manage_categories_post [design_category] [] 2 (some "add") (some "design") none
        = .ok ([design_category, { id := 2, name := "design" }], []) :=
  ⟨by decide, by decide, rfl⟩

/-- C3: every successful creation persists a request owned by the caller
with status "new", whatever status value the payload carried: the form
never reads a status field and the view overwrites `user` and `status`
unconditionally before saving. -/
theorem c3_create_forces_owner_and_new_status (caller next_id now : Nat)
    (categories : List Category) (requests : List DesignRequest)
    (inp : DesignRequestInput) (r : DesignRequest)
    (h : (create_request_post caller categories requests next_id now inp).1 = some r) :
    r.user = caller ∧ r.status = "new" := by
  unfold create_request_post at h
  by_cases hv : DesignRequestForm_is_valid categories inp
  · rw [if_pos hv] at h
    simp only [Option.some.injEq] at h
    subst h
    exact ⟨rfl, rfl⟩
  · rw [if_neg hv] at h
    simp at h

/-- Witness for C3: a concrete valid payload that even smuggles in
`status = "complited"` is persisted for caller 5 with status "new". -/
theorem c3_create_witness : c3_result.user = 5 ∧ c3_result.status = "new" :=
  c3_create_forces_owner_and_new_status 5 10 100 [design_category] [] c3_input c3_result
    (by decide)

/-- C5: a status-change submission targeting "in_progress" with a blank
comment fails with a field error on `admin_comment`; with a non-empty
comment it validates, and saving persists both the new status and the
comment — including through the full view on a fresh request. -/
theorem c5_in_progress_requires_comment (inst : DesignRequest) (comment : String)
    (hc : comment ≠ "") :
    (ChangeStatusForm_is_valid inst
        { status := "in_progress", design_image := none, admin_comment := "" } = false
      ∧ "admin_comment" ∈ ChangeStatusForm_errors inst
          { status := "in_progress", design_image := none, admin_comment := "" })
    ∧ (ChangeStatusForm_is_valid inst
        { status := "in_progress", design_image := none, admin_comment := comment } = true
      ∧ (ChangeStatusForm_save inst
          { status := "in_progress", design_image := none, admin_comment := comment }).status
          = "in_progress"
      ∧ (ChangeStatusForm_save inst
          { status := "in_progress", design_image := none, admin_comment := comment }).admin_comment
          = comment)
    ∧ (inst.status = "new" →
        change_status_post [inst] inst.id
          { status := "in_progress", design_image := none, admin_comment := comment }
          = (.success, [ChangeStatusForm_save inst
              { status := "in_progress", design_image := none, admin_comment := comment }])) := by
  have herr0 : ChangeStatusForm_errors inst
      { status := "in_progress", design_image := none, admin_comment := "" }
      = ["admin_comment"] := by
    simp [ChangeStatusForm_errors, ChangeStatusForm_cleaned_status,
      ChangeStatusForm_status_choices, STATUS_CHOICES]
  have herr1 : ChangeStatusForm_errors inst
      { status := "in_progress", design_image := none, admin_comment := comment }
      = [] := by
    simp [ChangeStatusForm_errors, ChangeStatusForm_cleaned_status,
      ChangeStatusForm_status_choices, STATUS_CHOICES, hc]
  refine ⟨⟨?_, ?_⟩, ⟨?_, rfl, rfl⟩, ?_⟩
  · simp [ChangeStatusForm_is_valid, herr0]
  · simp [herr0]
  · simp [ChangeStatusForm_is_valid, herr1]
  · intro hnew
    simp [change_status_post, List.find?, hnew, ChangeStatusForm_is_valid, herr1]

/-- Witness for C5: on the concrete fresh request `c5_request`, the comment
"ready" makes the in-progress submission valid and lands in the saved row. -/
theorem c5_in_progress_witness :
    ChangeStatusForm_is_valid c5_request
      { status := "in_progress", design_image := none, admin_comment := "ready" } = true
    ∧ (ChangeStatusForm_save c5_request
        { status := "in_progress", design_image := none, admin_comment := "ready" }).admin_comment
        = "ready" :=
  ⟨(c5_in_progress_requires_comment c5_request "ready" (by decide)).2.1.1,
   (c5_in_progress_requires_comment c5_request "ready" (by decide)).2.1.2.2⟩

/-- C8: registration name derivation.  Splitting the accepted full name
into non-empty whitespace-separated tokens: fewer than 2 tokens fail
`clean_full_name`; exactly 2 tokens give `first_name` = token 1 and
`last_name` = token 0; 3 or more tokens give `last_name` = token 0 ++ " "
++ token 2, a result built only from the first three tokens, so later
tokens never influence it. -/
theorem c8_full_name_derivation (full_name : String) (parts : List String)
    (hp : pySplit full_name = parts) :
    (parts.length < 2 → (clean_full_name full_name).isOk = false)
    ∧ (parts.length = 2 →
        (clean_full_name full_name).isOk = true
        ∧ derive_names full_name = (parts.getD 1 "", parts.getD 0 ""))
    ∧ (3 ≤ parts.length →
        (clean_full_name full_name).isOk = true
        ∧ derive_names full_name
            = (parts.getD 1 "", parts.getD 0 "" ++ " " ++ parts.getD 2 "")) := by
  refine ⟨?_, ?_, ?_⟩
  · intro h
    simp [clean_full_name, hp, h, Except.isOk, Except.toBool]
  · intro h
    have h2 : ¬ parts.length < 2 := by omega
    have h3 : ¬ parts.length > 2 := by omega
    have h4 : parts.length ≥ 2 := by omega
    constructor
    · simp [clean_full_name, hp, h2, Except.isOk, Except.toBool]
    · simp [derive_names, derive_from_parts, hp, h3, h4]
  · intro h
    have h2 : ¬ parts.length < 2 := by omega
    have h4 : parts.length ≥ 2 := by omega
    have h5 : parts.length > 2 := by omega
    constructor
    · simp [clean_full_name, hp, h2, Except.isOk, Except.toBool]
    · simp [derive_names, derive_from_parts, hp, h4, h5]

/-- Witness for C8: a four-token full name keeps tokens 0 and 2 in the
surname, uses token 1 as the first name, and drops token 3. -/
theorem c8_full_name_witness :
    (clean_full_name "Ivanov Ivan Ivanovich Extra").isOk = true
    ∧ derive_names "Ivanov Ivan Ivanovich Extra"
        = ("Ivan", "Ivanov" ++ " " ++ "Ivanovich") :=
  (c8_full_name_derivation "Ivanov Ivan Ivanovich Extra"
    ["Ivanov", "Ivan", "Ivanovich", "Extra"] rfl).2.2 (by decide)

/-- C9: the image validator accepts exactly the files whose lower-cased
extension is one of .jpg/.jpeg/.png/.bmp and whose size is at most
2*1024*1024 bytes; concretely, exactly 2 MiB passes, one byte more fails,
and a .gif fails at every size. -/
theorem c9_image_validator_characterisation :
    (∀ value : UploadedFile,
        (validate_image_extension_and_size value).isOk = true ↔
          (strLower (splitext_ext value.name) ∈ valid_extensions
            ∧ value.size ≤ 2 * 1024 * 1024))
    ∧ (validate_image_extension_and_size
        { name := "plan.jpg", size := 2 * 1024 * 1024 }).isOk = true
    ∧ (validate_image_extension_and_size
        { name := "plan.jpg", size := 2 * 1024 * 1024 + 1 }).isOk = false
    ∧ (∀ n : Nat,
        (validate_image_extension_and_size { name := "anim.gif", size := n }).isOk
          = false) := by
  have key : ∀ value : UploadedFile,
      (validate_image_extension_and_size value).isOk = true ↔
        (strLower (splitext_ext value.name) ∈ valid_extensions
          ∧ value.size ≤ 2 * 1024 * 1024) := by
    intro value
    unfold validate_image_extension_and_size validate_file_size
    by_cases hs : value.size > 2 * 1024 * 1024
    · simp [hs, Except.isOk, Except.toBool]
    · by_cases he : strLower (splitext_ext value.name) ∈ valid_extensions
      · simp [hs, he, Except.isOk, Except.toBool]
        omega
      · simp [hs, he, Except.isOk, Except.toBool]
  refine ⟨key, by decide, by decide, fun n => ?_⟩
  cases hb : (validate_image_extension_and_size { name := "anim.gif", size := n }).isOk
  · rfl
  · have hng : strLower (splitext_ext "anim.gif") ∉ valid_extensions := by decide
    exact absurd ((key { name := "anim.gif", size := n }).mp hb).1 hng

/-- C10: the status-change form offers every model choice, "new" included;
selecting "new" on a fresh request triggers neither cross-field rule, so
the submission validates, the view succeeds, and the saved row's status is
still the request's original "new". -/
theorem c10_new_target_is_accepted (inst : DesignRequest) (h : inst.status = "new") :
    ("new" ∈ ChangeStatusForm_status_choices
      ∧ ∀ p ∈ STATUS_CHOICES, p.1 ∈ ChangeStatusForm_status_choices)
    ∧ ChangeStatusForm_is_valid inst
        { status := "new", design_image := none, admin_comment := "" } = true
    ∧ (ChangeStatusForm_save inst
        { status := "new", design_image := none, admin_comment := "" }).status = inst.status
    ∧ change_status_post [inst] inst.id
        { status := "new", design_image := none, admin_comment := "" }
        = (.success, [ChangeStatusForm_save inst
            { status := "new", design_image := none, admin_comment := "" }]) := by
  have herr : ChangeStatusForm_errors inst
      { status := "new", design_image := none, admin_comment := "" } = [] := by
    simp [ChangeStatusForm_errors, ChangeStatusForm_cleaned_status,
      ChangeStatusForm_status_choices, STATUS_CHOICES]
  refine ⟨⟨by decide, by decide⟩, ?_, ?_, ?_⟩
  · simp [ChangeStatusForm_is_valid, herr]
  · simp [ChangeStatusForm_save, h]
  · simp [change_status_post, List.find?, h, ChangeStatusForm_is_valid, herr]

/-- Witness for C10: the concrete fresh request `c10_request` accepts the
"new" target and its status is unchanged. -/
theorem c10_new_target_witness :
    ChangeStatusForm_is_valid c10_request
      { status := "new", design_image := none, admin_comment := "" } = true
    ∧ (ChangeStatusForm_save c10_request
        { status := "new", design_image := none, admin_comment := "" }).status
        = c10_request.status :=
  ⟨(c10_new_target_is_accepted c10_request rfl).2.1,
   (c10_new_target_is_accepted c10_request rfl).2.2.1⟩

end DesignPro
